import Mathlib

/-!
Verification development for the orbital-resonance sonification pipeline.

The JavaScript sources are embedded shallowly:
* JS numbers are modelled as `ℚ` (coordinates, draws of `Math.random()`)
  or `ℤ` (timestamps from `Date.now()`, MIDI values, counters);
* JS `%` (remainder with the sign of the dividend) is `jsRemInt` / `jsRemQ`;
* `Math.floor` on a rational is `Int.floor`;
* a thrown `TypeError` (reading a field of `undefined`) is `Option.none`;
* JS `Map` objects are association lists with overwrite-on-insert.

Embedded components (file → definitions):
* `ScaleTheory.js` → `ScaleState`, `setScale`, `setKey`, `setMode`,
  `phaseToNote`, `noteToMidi`, `constrainToChord`;
* `ParameterMapper.js` → `MapperState`, `evalRules`, `checkTriggerRules`,
  `mapToAudio`, `getZone`;
* `AudioEngine.js` → `AudioState`, `processSatellite`, `updateStats`, `run`.
-/

namespace OrbitalResonance

/-- JS `%` on integers: remainder carrying the sign of the dividend
(`(-1) % 7 === -1`). -/
def jsRemInt (a b : ℤ) : ℤ := if a < 0 then -((-a) % b) else a % b

/-- Truncation toward zero of a rational, as JS coerces a quotient
inside the `%` operator. -/
def jsTrunc (q : ℚ) : ℤ := if q < 0 then Int.ceil q else Int.floor q

/-- JS `%` on (floating-point, here rational) numbers:
`a - b * trunc(a / b)`. -/
def jsRemQ (a b : ℚ) : ℚ := a - b * jsTrunc (a / b)

/-- JS `Array.prototype.indexOf`: index of the first occurrence, `-1` when
absent. -/
def jsIndexOf (xs : List String) (x : String) : ℤ :=
  match xs.findIdx? (fun y => y == x) with
  | some i => (i : ℤ)
  | none => -1

/-! ## ScaleTheory.js -/

/-- `this.noteNames` of `ScaleTheory` (the twelve pitch-class names in sharp
spelling, written here as two halves). -/
def noteNames : List String :=
  ["C", "C#", "D", "D#", "E", "F"] ++ ["F#", "G", "G#", "A", "A#", "B"]

/-- `this.scales` of `ScaleTheory`: scale name → semitone offsets from root. -/
def scalesTable : List (String × List ℕ) :=
  [("pentatonic", [0, 2, 4, 7, 9]),
   ("minorPentatonic", [0, 3, 5, 7, 10]),
   ("major", [0, 2, 4, 5, 7, 9, 11]),
   ("minor", [0, 2, 3, 5, 7, 8, 10]),
   ("wholeTone", [0, 2, 4, 6, 8, 10]),
   ("harmonicMinor", [0, 2, 3, 5, 7, 8, 11]),
   ("lydian", [0, 2, 4, 6, 7, 9, 11]),
   ("dorian", [0, 2, 3, 5, 7, 9, 10]),
   ("cosmic", [0, 2, 4, 6, 7, 9, 11]),
   ("deep_space", [0, 2, 3, 7, 8, 11]),
   ("prototype", [0, 2, 4, 6, 8, 10])]

/-- `this.scales[name]`: `none` models JS `undefined`. -/
def scalesLookup (name : String) : Option (List ℕ) :=
  (scalesTable.find? (fun e => e.1 == name)).map (fun e => e.2)

/-- The mutable scale/key state of a `ScaleTheory` instance. -/
structure ScaleState where
  currentScale : String
  currentKey : ℤ
  deriving DecidableEq, Repr

/-- Constructor state: `currentScale = 'cosmic'`, `currentKey = 2` (D). -/
def initScaleState : ScaleState := { currentScale := "cosmic", currentKey := 2 }

/-- `ScaleTheory.setScale(scaleName, keyNote = 'C')`. -/
def setScale (st : ScaleState) (scaleName : String) (keyNote : String) : ScaleState :=
  let st1 := if (scalesLookup scaleName).isSome then
    { st with currentScale := scaleName } else st
  let keyIndex := jsIndexOf noteNames keyNote
  if keyIndex ≠ -1 then { st1 with currentKey := keyIndex } else st1

/-- `ScaleTheory.setKey(keyNote)`. -/
def setKey (st : ScaleState) (keyNote : String) : ScaleState :=
  let keyIndex := jsIndexOf noteNames keyNote
  if keyIndex ≠ -1 then { st with currentKey := keyIndex } else st

/-- `ScaleTheory.setMode(modeName)`. -/
def setMode (st : ScaleState) (modeName : String) : ScaleState :=
  if (scalesLookup modeName).isSome then { st with currentScale := modeName } else st

/-- The JS value `phaseToNote` returns: in the normal path `noteName` is a
string and `noteName + octave` concatenates; when an index goes out of range
the lookup yields `undefined`, and `undefined + octave` (a number) is
NUMERIC addition, so the call returns the number `NaN`, not a string. -/
inductive JsNote where
  | str (s : String)
  | nan
  deriving DecidableEq, Repr

/-- `ScaleTheory.phaseToNote(phase, category)`.  `none` models the TypeError
thrown when `this.scales[this.currentScale]` is `undefined`.  A negative
`noteIndex` (possible because JS `%` keeps the dividend's sign) reads
`scale[noteIndex] = undefined`; the semitone becomes NaN, `noteNames[NaN]`
is `undefined` and `noteName + octave` evaluates to `NaN` — likewise when
the semitone itself falls outside the table.  The `JsNote.nan` branches
model those paths. -/
def phaseToNote (st : ScaleState) (phase : ℚ) (category : String) : Option JsNote :=
  match scalesLookup st.currentScale with
  | none => none
  | some scale =>
    let scaleLength : ℤ := scale.length
    let noteIndex : ℤ := jsRemInt (Int.floor (phase / 360 * (scale.length : ℚ))) scaleLength
    let octave : ℕ :=
      if category = "STATION" then 3
      else if category = "COMMUNICATION" then 5
      else if category = "SCIENCE" then 6
      else if category = "DEBRIS" then 7
      else 4
    if 0 ≤ noteIndex ∧ noteIndex < scaleLength then
      let semitone : ℤ := jsRemInt (st.currentKey + (scale.getD noteIndex.toNat 0 : ℤ)) 12
      if 0 ≤ semitone ∧ semitone < 12 then
        some (JsNote.str (noteNames.getD semitone.toNat "" ++ toString octave))
      else some JsNote.nan
    else some JsNote.nan

/-- The unanchored JS regex search `noteName.match(/([A-G]#?)(\d)/)`:
first position where a pitch letter, an optional sharp and a digit match;
returns the matched name and the digit. -/
def findNoteMatch : List Char → Option (String × ℕ)
  | [] => none
  | c :: rest =>
    if 'A' ≤ c ∧ c ≤ 'G' then
      match rest with
      | '#' :: d :: _ =>
        if d.isDigit then some (String.mk [c, '#'], d.toNat - '0'.toNat)
        else findNoteMatch rest
      | d :: _ =>
        if d.isDigit then some (String.mk [c], d.toNat - '0'.toNat)
        else findNoteMatch rest
      | [] => none
    else findNoteMatch rest

/-- `ScaleTheory.noteToMidi(noteName)`: default 60 when the regex fails. -/
def noteToMidi (noteName : String) : ℤ :=
  match findNoteMatch noteName.toList with
  | none => 60
  | some (note, octave) => ((octave : ℤ) + 1) * 12 + jsIndexOf noteNames note

/-- `ScaleTheory.constrainToChord(note, allowedNotes)`.  The inner loop walks
octaves `octave-1 .. octave+1`; `Math.floor(closestMidi / 12)` is Euclidean
division by the positive constant 12. -/
def constrainToChord (note : String) (allowedNotes : List String) : String :=
  if allowedNotes.length = 0 then note
  else
    match findNoteMatch note.toList with
    | none => note
    | some (_, octave) =>
      let inputMidi := noteToMidi note
      let cands := allowedNotes.flatMap (fun allowedName =>
        [((octave : ℤ) - 1), (octave : ℤ), ((octave : ℤ) + 1)].map
          (fun o => noteToMidi (allowedName ++ toString o)))
      let best := cands.foldl
        (fun acc targetMidi =>
          if |targetMidi - inputMidi| < acc.2 then (targetMidi, |targetMidi - inputMidi|)
          else acc)
        ((-1 : ℤ), (999 : ℤ))
      let closestMidi := best.1
      let semitone := jsRemInt closestMidi 12
      let outNote :=
        if 0 ≤ semitone ∧ semitone < 12 then noteNames.getD semitone.toNat "undefined"
        else "undefined"
      let outOctave := closestMidi / 12 - 1
      outNote ++ toString outOctave

/-! ## ParameterMapper.js -/

/-- A geodetic position sample (`satellite.position`). -/
structure Pos where
  longitude : ℚ
  latitude : ℚ
  altitude : ℚ
  deriving DecidableEq, Repr

/-- The satellite fields the mapper and audio engine read.  A missing
`position` (JS `null`/`undefined`) is `none`. -/
structure Satellite where
  noradId : Option String
  name : String
  position : Option Pos
  category : String
  normalizedAltitude : ℚ
  deriving DecidableEq, Repr

/-- `satellite.noradId || satellite.name`. -/
def satIdOf (s : Satellite) : String := s.noradId.getD s.name

/-- One record of `this.previousStates` (per-entity trigger state). -/
structure PrevState where
  longitude : ℚ
  latitude : ℚ
  altitude : ℚ
  wasOnScreen : Bool
  lastBeacon : ℤ
  deriving DecidableEq, Repr

/-- `Map.prototype.get` on an association list. -/
def alLookup {α : Type} (l : List (String × α)) (k : String) : Option α :=
  (l.find? (fun e => e.1 == k)).map (fun e => e.2)

/-- `Map.prototype.set` on an association list: overwrite or append. -/
def alInsert {α : Type} : List (String × α) → String → α → List (String × α)
  | [], k, v => [(k, v)]
  | (k1, v1) :: t, k, v =>
    if k1 == k then (k, v) :: t else (k1, v1) :: alInsert t k v

/-- The mutable state of a `ParameterMapper` instance. -/
structure MapperState where
  previousStates : List (String × PrevState)
  deriving DecidableEq, Repr

/-- The `this.triggerRules` configuration object (constructor values). -/
structure TriggerRulesCfg where
  gridEnabled : Bool
  gridSpacing : ℚ
  screenEnabled : Bool
  zoneEnabled : Bool
  periodicEnabled : Bool
  periodicInterval : ℚ

/-- Constructor values of `this.triggerRules`. -/
def triggerRules : TriggerRulesCfg :=
  { gridEnabled := true, gridSpacing := 10, screenEnabled := true,
    zoneEnabled := true, periodicEnabled := true, periodicInterval := 1000 }

/-- `this.triggerRules.zoneChange.zones`. -/
def zones : List (String × ℚ × ℚ) :=
  [("LEO", 0, 2000), ("MEO", 2000, 20000), ("GEO", 20000, 50000)]

/-- `ParameterMapper.getZone(altitude, zones)`: first band containing the
altitude, else `"DEEP"`. -/
def getZone (altitude : ℚ) : String :=
  match zones.find? (fun z => decide (z.2.1 ≤ altitude) && decide (altitude < z.2.2)) with
  | some z => z.1
  | none => "DEEP"

/-- The per-call environment of `checkTriggerRules`: the `Date.now()` reading
and the two `Math.random()` draws of the periodic-beacon rule. -/
structure TriggerInput where
  now : ℤ
  jitter : ℚ
  beaconDraw : ℚ
  deriving DecidableEq, Repr

/-- What one pass over the four rules produces: the trigger decision and the
values the two rule-owned fields of the entity's record end the call with. -/
structure RuleOutcome where
  triggered : Bool
  rule : Option String
  detail : Option String
  wasOnScreen : Bool
  lastBeacon : ℤ
  deriving DecidableEq, Repr

/-- The `isOnScreen` predicate of the screen-entry rule:
`Math.abs(pos.longitude) < 170 && Math.abs(pos.latitude) < 85`. -/
def isOnScreen (pos : Pos) : Bool :=
  decide (|pos.longitude| < 170) && decide (|pos.latitude| < 85)

/-- Rule 1 (grid crossing) of `checkTriggerRules`: the
`(triggered, ruleName, ruleDetail)` accumulator after the block. -/
def gridStage (prev : PrevState) (pos : Pos) : Bool × Option String × Option String :=
  let spacing := triggerRules.gridSpacing
  let currLonGrid := Int.floor (pos.longitude / spacing)
  let currLatGrid := Int.floor (pos.latitude / spacing)
  if triggerRules.gridEnabled = true then
    if Int.floor (prev.longitude / spacing) ≠ currLonGrid then
      (true, some "GRID LINE (LON)", some (toString (currLonGrid * spacing) ++ "° E"))
    else if Int.floor (prev.latitude / spacing) ≠ currLatGrid then
      (true, some "GRID LINE (LAT)", some (toString (currLatGrid * spacing) ++ "° N"))
    else (false, none, none)
  else (false, none, none)

/-- Rule 2 (screen entry): fires only inside the `enabled && !triggered`
block, on the rising edge of `isOnScreen`. -/
def screenStage (prev : PrevState) (pos : Pos) (s : Bool × Option String × Option String) :
    Bool × Option String × Option String :=
  if triggerRules.screenEnabled = true ∧ s.1 = false then
    if prev.wasOnScreen = false ∧ isOnScreen pos = true then
      (true, some "ENTERED SCREEN", some "Visual Contact")
    else s
  else s

/-- The value `prevState.wasOnScreen` ends the call with: rewritten to the
current `isOnScreen` only when the screen block ran (no grid rule fired). -/
def wasOnScreenAfter (prev : PrevState) (pos : Pos)
    (s1 : Bool × Option String × Option String) : Bool :=
  if triggerRules.screenEnabled = true ∧ s1.1 = false then isOnScreen pos
  else prev.wasOnScreen

/-- Rule 3 (zone change). -/
def zoneStage (prev : PrevState) (pos : Pos) (s : Bool × Option String × Option String) :
    Bool × Option String × Option String :=
  if triggerRules.zoneEnabled = true ∧ s.1 = false then
    if getZone prev.altitude ≠ getZone pos.altitude then
      (true, some "ZONE CHANGE", some (getZone prev.altitude ++ " → " ++ getZone pos.altitude))
    else s
  else s

/-- Rule 4 (periodic beacon) together with the beacon-timer rewrite: the
final accumulator extended with the value of `prevState.lastBeacon`. -/
def beaconStage (prev : PrevState) (inp : TriggerInput)
    (s : Bool × Option String × Option String) :
    Bool × Option String × Option String × ℤ :=
  if s.1 = false ∧ triggerRules.periodicEnabled = true then
    if (inp.now : ℚ) - (prev.lastBeacon : ℚ) > triggerRules.periodicInterval + inp.jitter * 1000
        ∧ inp.beaconDraw < 1 / 10 then
      (true, some "BEACON SIGNAL", some "Keep-alive Signal", inp.now)
    else if prev.lastBeacon = 0 then (s.1, s.2.1, s.2.2, inp.now)
    else (s.1, s.2.1, s.2.2, prev.lastBeacon)
  else if s.1 = true then (s.1, s.2.1, s.2.2, inp.now)
  else (s.1, s.2.1, s.2.2, prev.lastBeacon)

/-- The rule cascade inside `ParameterMapper.checkTriggerRules`, given the
entity's previous record and the current sample: the four rule blocks run in
source order, each later block guarded by `!triggered`. -/
def evalRules (prev : PrevState) (pos : Pos) (inp : TriggerInput) : RuleOutcome :=
  let s1 := gridStage prev pos
  let s2 := screenStage prev pos s1
  let s3 := zoneStage prev pos s2
  let s4 := beaconStage prev inp s3
  { triggered := s4.1, rule := s4.2.1, detail := s4.2.2.1,
    wasOnScreen := wasOnScreenAfter prev pos s1, lastBeacon := s4.2.2.2 }

/-- The `{ shouldTrigger, rule, detail }` object `checkTriggerRules` returns. -/
structure TriggerResult where
  shouldTrigger : Bool
  rule : Option String
  detail : Option String
  deriving DecidableEq, Repr

/-- `ParameterMapper.checkTriggerRules(satellite)`: early exit on a missing
position, lazy creation of the previous-state record from the current sample,
the rule cascade, and the unconditional rewrite of the record. -/
def checkTriggerRules (m : MapperState) (sat : Satellite) (inp : TriggerInput) :
    MapperState × TriggerResult :=
  match sat.position with
  | none => (m, { shouldTrigger := false, rule := none, detail := none })
  | some pos =>
    let satId := satIdOf sat
    let prev := (alLookup m.previousStates satId).getD
      { longitude := pos.longitude, latitude := pos.latitude, altitude := pos.altitude,
        wasOnScreen := false, lastBeacon := 0 }
    let o := evalRules prev pos inp
    ({ previousStates := alInsert m.previousStates satId
        { longitude := pos.longitude, latitude := pos.latitude, altitude := pos.altitude,
          wasOnScreen := o.wasOnScreen, lastBeacon := o.lastBeacon } },
     { shouldTrigger := o.triggered, rule := o.rule, detail := o.detail })

/-- `this.categoryConfig[category].baseVolume`, with the `COMMUNICATION`
fallback for unknown categories. -/
def baseVolumeOf (category : String) : ℚ :=
  if category = "STATION" then -3
  else if category = "COMMUNICATION" then -12
  else if category = "NAVIGATION" then -8
  else if category = "WEATHER" then -10
  else if category = "SCIENCE" then -6
  else if category = "DEBRIS" then -18
  else -12

/-- The fields of the object `mapToAudio` returns that downstream code
reads (the frequency handed to the player is omitted: it is consumed only by
the external synthesis black box). -/
structure AudioParams where
  note : String
  volume : ℚ
  pan : ℚ
  reverbMix : ℚ
  shouldTrigger : Bool
  triggerRule : Option String
  triggerDetail : Option String
  category : String
  deriving DecidableEq, Repr

/-- `ParameterMapper.mapToAudio(satellite)`: runs the trigger rules, derives
the orbital phase from longitude, and maps it to a note.  `none` in the
second component models a TypeError: either thrown inside `phaseToNote`
(unknown scale), or — when `phaseToNote` returned `NaN` — thrown by the
`noteToFrequency(note)` call in the returned object literal, whose
`noteName.match` does not exist on a number. -/
def mapToAudio (sc : ScaleState) (m : MapperState) (sat : Satellite) (inp : TriggerInput) :
    MapperState × Option AudioParams :=
  let r := checkTriggerRules m sat inp
  let orbitalPhase : ℚ :=
    match sat.position with
    | some p => jsRemQ (p.longitude + 180) 360
    | none => 0
  match phaseToNote sc orbitalPhase sat.category with
  | none => (r.1, none)
  | some JsNote.nan => (r.1, none)
  | some (JsNote.str note) =>
    let volumeDb := baseVolumeOf sat.category - sat.normalizedAltitude * 10
    let reverbMix := 1 / 10 + sat.normalizedAltitude * (85 / 100)
    let pan : ℚ :=
      match sat.position with
      | some p => max (-1) (min 1 (p.longitude / 180))
      | none => 0
    (r.1, some
      { note := note, volume := volumeDb, pan := pan, reverbMix := reverbMix,
        shouldTrigger := r.2.shouldTrigger, triggerRule := r.2.rule,
        triggerDetail := r.2.detail, category := sat.category })

/-! ## AudioEngine.js -/

/-- The scheduler-relevant mutable state of an `AudioEngine` instance (with
the `ScaleTheory` and `ParameterMapper` it owns). -/
structure AudioState where
  scale : ScaleState
  mapper : MapperState
  lastTriggerTime : List (String × ℤ)
  globalLastTrigger : ℤ
  eventCounter : ℤ
  eventsPerSecond : ℤ
  voiceCount : ℤ
  lastStatsUpdate : ℤ
  deriving DecidableEq, Repr

/-- The per-call environment of `processSatellite`: the `Date.now()` reading,
the random draws, and what the two external collaborators report
(`harmonyManager.getDensity()` and `conductorResult.allowedNotes`). -/
structure ProcInput where
  now : ℤ
  jitter : ℚ
  beaconDraw : ℚ
  ruleDraw : ℚ
  ambientDraw : ℚ
  density : ℚ
  allowedNotes : Option (List String)
  deriving DecidableEq, Repr

/-- `AudioEngine.processSatellite(satellite, conductorResult)`.  Returns
`none` when the call throws (reading `.altitude` of a missing position on the
ambient path, or an invalid scale name inside `phaseToNote`); otherwise the
new state and, if a sound was admitted, the admission time and the note
played.  The polyphony ceiling and the 100 ms global throttle reject before
anything is computed; on admission `globalLastTrigger`, the per-entity
`lastTriggerTime` and `eventCounter` are updated. -/
def processSatellite (st : AudioState) (sat : Satellite) (inp : ProcInput) :
    Option (AudioState × Option (ℤ × String)) :=
  if st.eventCounter > 15 then some (st, none)
  else if inp.now - st.globalLastTrigger < 100 then some (st, none)
  else
    let r := mapToAudio st.scale st.mapper sat
      { now := inp.now, jitter := inp.jitter, beaconDraw := inp.beaconDraw }
    match r.2 with
    | none => none
    | some audioParams =>
      let satId := satIdOf sat
      let timeSinceLast := inp.now - (alLookup st.lastTriggerTime satId).getD 0
      let noteToPlay :=
        match inp.allowedNotes with
        | some allowed => constrainToChord audioParams.note allowed
        | none => audioParams.note
      let admitState : AudioState :=
        { st with mapper := r.1,
                  globalLastTrigger := inp.now,
                  lastTriggerTime := alInsert st.lastTriggerTime satId inp.now,
                  eventCounter := st.eventCounter + 1 }
      if audioParams.shouldTrigger = true then
        if inp.ruleDraw < 15 / 100 then some (admitState, some (inp.now, noteToPlay))
        else some ({ st with mapper := r.1 }, none)
      else
        match sat.position with
        | none => none
        | some pos =>
          let altitude := if pos.altitude = 0 then 500 else pos.altitude
          let speedFactor := 1 - min (altitude / 30000) 1
          let minInterval := 15000 + (1 - speedFactor) * 30000
          if (timeSinceLast : ℚ) > minInterval ∧ inp.ambientDraw < inp.density then
            some (admitState, some (inp.now, noteToPlay))
          else some ({ st with mapper := r.1 }, none)

/-- `AudioEngine.updateStats()`: once at least a second has elapsed, publish
and reset the event counter.  `extVoice` is what the external
`instruments.getVoiceCount()` reports (`0` when falsy, falling back to the
just-published events-per-second figure). -/
def updateStats (st : AudioState) (now : ℤ) (extVoice : ℤ) : AudioState :=
  if now - st.lastStatsUpdate ≥ 1000 then
    { st with eventsPerSecond := st.eventCounter,
              eventCounter := 0,
              lastStatsUpdate := now,
              voiceCount := if extVoice = 0 then st.eventCounter else extVoice }
  else st

/-- One observable step of the engine: a `processSatellite` call, an
`updateStats` call, or any interference by the other per-tick work
(`mapCollective`, the conductor's `setScale`) — which rewrites only the
mapper and scale state, never the scheduler fields. -/
inductive Step where
  | proc (sat : Satellite) (inp : ProcInput)
  | stats (now : ℤ) (extVoice : ℤ)
  | interleave (m : MapperState) (sc : ScaleState)

/-- The admission times of a sequence of engine steps.  A call that throws
admits nothing and leaves the scheduler fields as they were (the exception
aborts the remaining body of the tick's loop; any step list with later calls
is itself quantified over). -/
def run (st : AudioState) : List Step → List ℤ
  | [] => []
  | Step.proc sat inp :: rest =>
    match processSatellite st sat inp with
    | none => run st rest
    | some (st2, none) => run st2 rest
    | some (st2, some (t, _)) => t :: run st2 rest
  | Step.stats now extVoice :: rest => run (updateStats st now extVoice) rest
  | Step.interleave m sc :: rest => run { st with mapper := m, scale := sc } rest

/-! ## Spec-side definitions used for refinement claims -/

/-- Modelled from the spec: the previous-state record `checkTriggerRules`
reads for an entity — the stored record, or on first observation a record
initialized from the current sample with the visibility flag down and no
beacon timestamp. -/
def prevOf (m : MapperState) (sat : Satellite) (pos : Pos) : PrevState :=
  (alLookup m.previousStates (satIdOf sat)).getD
    { longitude := pos.longitude, latitude := pos.latitude, altitude := pos.altitude,
      wasOnScreen := false, lastBeacon := 0 }

/-- Modelled from the spec: the rule that wins under the fixed priority order
grid crossing (longitude before latitude) > screen entry > zone change >
periodic beacon, a higher-priority match suppressing all lower checks. -/
def prioritySelect (prev : PrevState) (pos : Pos) (inp : TriggerInput) : Option String :=
  if Int.floor (prev.longitude / 10) ≠ Int.floor (pos.longitude / 10) then
    some "GRID LINE (LON)"
  else if Int.floor (prev.latitude / 10) ≠ Int.floor (pos.latitude / 10) then
    some "GRID LINE (LAT)"
  else if prev.wasOnScreen = false ∧
      (decide (|pos.longitude| < 170) && decide (|pos.latitude| < 85)) = true then
    some "ENTERED SCREEN"
  else if getZone prev.altitude ≠ getZone pos.altitude then
    some "ZONE CHANGE"
  else if (inp.now : ℚ) - (prev.lastBeacon : ℚ) > 1000 + inp.jitter * 1000
      ∧ inp.beaconDraw < 1 / 10 then
    some "BEACON SIGNAL"
  else none

/-- Modelled from the spec: the MIDI value of the candidate formed by pitch
class `pc` placed at octave `o` — `(octave + 1) * 12` plus the pitch-class
index. -/
def candMidi (pc : String) (o : ℤ) : ℤ := (o + 1) * 12 + jsIndexOf noteNames pc

/-! ## Concrete scenario used to exercise the trigger detector -/

/-- A stored record: entity last seen at the origin, visibility flag down,
stale beacon timestamp. -/
def p0 : PrevState :=
  { longitude := 0, latitude := 0, altitude := 500, wasOnScreen := false, lastBeacon := 1 }

/-- The current sample, one grid line east of the stored record. -/
def pos0 : Pos := { longitude := 10, latitude := 0, altitude := 500 }

/-- A mapper state holding the one entity. -/
def m0 : MapperState := { previousStates := [("SAT", p0)] }

/-- The satellite carrying that sample. -/
def sat0 : Satellite :=
  { noradId := some "SAT", name := "Sat Zero", position := some pos0,
    category := "COMMUNICATION", normalizedAltitude := 1 / 2 }

/-- An empty mapper state (no entity observed yet). -/
def mEmpty : MapperState := { previousStates := [] }

/-- A satellite not yet observed, used against `mEmpty`. -/
def sat1 : Satellite :=
  { noradId := some "NEW", name := "Newcomer", position := some pos0,
    category := "SCIENCE", normalizedAltitude := 1 / 2 }

/-- Environment of the first call. -/
def inp0 : TriggerInput := { now := 5000, jitter := 0, beaconDraw := 1 / 2 }

/-- Environment of the second call, one millisecond later. -/
def inp0b : TriggerInput := { now := 5001, jitter := 0, beaconDraw := 1 / 2 }

/-! ## Helper lemmas -/

theorem alLookup_alInsert_self {α : Type} (l : List (String × α)) (k : String) (v : α) :
    alLookup (alInsert l k v) k = some v := by
  induction l with
  | nil => simp [alLookup, alInsert]
  | cons e t ih =>
    obtain ⟨k1, v1⟩ := e
    by_cases h : k1 == k
    · simp [alInsert, alLookup, h]
    · simp only [alInsert, h, Bool.false_eq_true, if_false]
      simpa [alLookup, List.find?, h] using ih

theorem jsRemInt_add_self (a L : ℤ) (ha : 0 ≤ a) (hL : 0 ≤ L) :
    jsRemInt (a + L) L = jsRemInt a L := by
  unfold jsRemInt
  rw [if_neg (by omega), if_neg (by omega),
    show a + L = a + L * 1 by ring, Int.add_mul_emod_self_left]

/-! ## C2 — `phaseToNote` determinism and periodicity -/

/-- C2 (amended): for every scale/key state, every nonnegative phase `p` and
every category, `phaseToNote` is periodic: `phaseToNote p = phaseToNote
(p + 360)`.  (Determinism is inherent: the embedding is a function of the
state and arguments.) -/
theorem phaseToNote_periodic_nonneg (st : ScaleState) (p : ℚ) (category : String)
    (hp : 0 ≤ p) :
    phaseToNote st p category = phaseToNote st (p + 360) category := by
  cases hsc : scalesLookup st.currentScale with
  | none => simp [phaseToNote, hsc]
  | some scale =>
    have h1 : (p + 360) / 360 * (scale.length : ℚ) =
        p / 360 * (scale.length : ℚ) + ((scale.length : ℤ) : ℚ) := by
      push_cast
      ring
    have h2 : (0 : ℚ) ≤ p / 360 * (scale.length : ℚ) :=
      mul_nonneg (div_nonneg hp (by norm_num)) (Nat.cast_nonneg _)
    simp only [phaseToNote, hsc, h1, Int.floor_add_int,
      jsRemInt_add_self _ _ (Int.floor_nonneg.mpr h2) (Int.ofNat_nonneg _)]

/-- C2 witness: the periodicity theorem applied at phase 30. -/
theorem phaseToNote_periodic_nonneg_witness :
    phaseToNote initScaleState 30 "WEATHER" = phaseToNote initScaleState (30 + 360) "WEATHER" :=
  phaseToNote_periodic_nonneg initScaleState 30 "WEATHER" (by norm_num)

/-- C2 counterexample: at the negative phase `-30` the JS remainder produces
the scale index `-1`, `scale[-1]` is `undefined`, and `noteName + octave`
(numeric addition on `undefined`) returns `NaN` — while `phaseToNote 330`
returns the string `"C#4"` — so periodicity fails at `p = -30`. -/
theorem phaseToNote_not_periodic_at_neg30 :
    phaseToNote initScaleState (-30) "WEATHER" = some JsNote.nan ∧
      phaseToNote initScaleState (-30 + 360) "WEATHER" = some (JsNote.str "C#4") ∧
      JsNote.nan ≠ JsNote.str "C#4" := by
  have hs : scalesLookup initScaleState.currentScale = some [0, 2, 4, 6, 7, 9, 11] := by decide
  have f1 : Int.floor ((-30 : ℚ) / 360 * (([0, 2, 4, 6, 7, 9, 11] : List ℕ).length : ℚ)) = -1 := by
    norm_num
  have f2 : Int.floor (((-30 : ℚ) + 360) / 360 * (([0, 2, 4, 6, 7, 9, 11] : List ℕ).length : ℚ)) = 6 := by
    norm_num
  refine ⟨?_, ?_, by decide⟩
  · simp only [phaseToNote, hs, f1]
    decide
  · simp only [phaseToNote, hs, f2]
    decide

/-! ## C7 — missing position: no event, no state mutation -/

/-- C7: when the satellite's position is missing, `checkTriggerRules` returns
`{ shouldTrigger: false, rule: null }` and leaves the previous-state map
untouched. -/
theorem checkTriggerRules_noPosition (m : MapperState) (sat : Satellite) (inp : TriggerInput)
    (h : sat.position = none) :
    checkTriggerRules m sat inp = (m, { shouldTrigger := false, rule := none, detail := none }) := by
  simp [checkTriggerRules, h]

/-- C7 witness: a concrete satellite without a position. -/
theorem checkTriggerRules_noPosition_witness :
    checkTriggerRules { previousStates := [] }
        { noradId := some "25544", name := "ISS", position := none,
          category := "STATION", normalizedAltitude := 0 }
        { now := 1000, jitter := 0, beaconDraw := 0 } =
      ({ previousStates := [] }, { shouldTrigger := false, rule := none, detail := none }) :=
  checkTriggerRules_noPosition _ _ _ rfl

/-! ## C8 — invalid mode/key names are silently ignored -/

/-- C8: `setMode` with a name outside the scale table and `setKey` with a
name outside the 12 pitch classes are both no-ops. -/
theorem setMode_setKey_invalid_noop (st : ScaleState) (modeName keyNote : String)
    (hm : scalesLookup modeName = none) (hk : jsIndexOf noteNames keyNote = -1) :
    setMode st modeName = st ∧ setKey st keyNote = st := by
  constructor
  · simp [setMode, hm]
  · simp [setKey, hk]

/-- C8 witness: unknown mode `"phrygian"` and unknown key `"H"`. -/
theorem setMode_setKey_invalid_noop_witness :
    setMode initScaleState "phrygian" = initScaleState ∧
      setKey initScaleState "H" = initScaleState :=
  setMode_setKey_invalid_noop initScaleState "phrygian" "H" (by decide) (by decide)

/-! ## C9 — `setScale` applies its key independently of scale validity -/

/-- C9: with an unknown scale name but a valid key note, `setScale` leaves
`currentScale` unchanged yet still sets `currentKey`; and because the key
argument defaults to `'C'`, calling `setScale` with only a scale name always
resets `currentKey` to 0. -/
theorem setScale_key_independent (st : ScaleState) (scaleName keyNote : String)
    (hs : scalesLookup scaleName = none) (hk : jsIndexOf noteNames keyNote ≠ -1) :
    (setScale st scaleName keyNote).currentScale = st.currentScale ∧
      (setScale st scaleName keyNote).currentKey = jsIndexOf noteNames keyNote ∧
      ∀ anyName : String, (setScale st anyName "C").currentKey = 0 := by
  have hC : jsIndexOf noteNames "C" = 0 := by decide
  refine ⟨?_, ?_, ?_⟩
  · simp [setScale, hs, hk]
  · simp [setScale, hs, hk]
  · intro anyName
    by_cases h : (scalesLookup anyName).isSome <;> simp [setScale, h, hC]

/-- C9 witness: unknown scale `"blorp"` with valid key `"G"`. -/
theorem setScale_key_independent_witness :
    (setScale initScaleState "blorp" "G").currentScale = initScaleState.currentScale ∧
      (setScale initScaleState "blorp" "G").currentKey = jsIndexOf noteNames "G" ∧
      ∀ anyName : String, (setScale initScaleState anyName "C").currentKey = 0 :=
  setScale_key_independent initScaleState "blorp" "G" (by decide) (by decide)

/-! ## Lemmas about the rule cascade -/

theorem checkTriggerRules_result_prevOf (m : MapperState) (sat : Satellite)
    (inp : TriggerInput) (pos : Pos) (hpos : sat.position = some pos) :
    (checkTriggerRules m sat inp).2 =
      { shouldTrigger := (evalRules (prevOf m sat pos) pos inp).triggered,
        rule := (evalRules (prevOf m sat pos) pos inp).rule,
        detail := (evalRules (prevOf m sat pos) pos inp).detail } := by
  simp [checkTriggerRules, hpos, prevOf]

theorem checkTriggerRules_stores_eq (m : MapperState) (sat : Satellite)
    (inp : TriggerInput) (pos : Pos) (hpos : sat.position = some pos) :
    alLookup (checkTriggerRules m sat inp).1.previousStates (satIdOf sat) =
      some { longitude := pos.longitude, latitude := pos.latitude, altitude := pos.altitude,
             wasOnScreen := (evalRules (prevOf m sat pos) pos inp).wasOnScreen,
             lastBeacon := (evalRules (prevOf m sat pos) pos inp).lastBeacon } := by
  simp only [checkTriggerRules, hpos, prevOf]
  exact alLookup_alInsert_self _ _ _

theorem gridStage_fire_lon (prev : PrevState) (pos : Pos)
    (hlon : Int.floor (prev.longitude / 10) ≠ Int.floor (pos.longitude / 10)) :
    gridStage prev pos = (true, some "GRID LINE (LON)",
      some (toString ((Int.floor (pos.longitude / 10) : ℚ) * 10) ++ "° E")) := by
  simp [gridStage, triggerRules, hlon]

theorem gridStage_fire_lat (prev : PrevState) (pos : Pos)
    (hlon : Int.floor (prev.longitude / 10) = Int.floor (pos.longitude / 10))
    (hlat : Int.floor (prev.latitude / 10) ≠ Int.floor (pos.latitude / 10)) :
    gridStage prev pos = (true, some "GRID LINE (LAT)",
      some (toString ((Int.floor (pos.latitude / 10) : ℚ) * 10) ++ "° N")) := by
  simp [gridStage, triggerRules, hlon, hlat]

theorem gridStage_nofire (prev : PrevState) (pos : Pos)
    (hlon : Int.floor (prev.longitude / 10) = Int.floor (pos.longitude / 10))
    (hlat : Int.floor (prev.latitude / 10) = Int.floor (pos.latitude / 10)) :
    gridStage prev pos = (false, none, none) := by
  simp [gridStage, triggerRules, hlon, hlat]

theorem gridStage_sameCoords (prev : PrevState) (pos : Pos)
    (h1 : prev.longitude = pos.longitude) (h2 : prev.latitude = pos.latitude) :
    gridStage prev pos = (false, none, none) := by
  simp [gridStage, h1, h2]

theorem screenStage_true (prev : PrevState) (pos : Pos) (x y : Option String) :
    screenStage prev pos (true, x, y) = (true, x, y) := by
  simp [screenStage]

theorem zoneStage_true (prev : PrevState) (pos : Pos) (x y : Option String) :
    zoneStage prev pos (true, x, y) = (true, x, y) := by
  simp [zoneStage]

theorem beaconStage_true (prev : PrevState) (inp : TriggerInput) (x y : Option String) :
    beaconStage prev inp (true, x, y) = (true, x, y, inp.now) := by
  simp [beaconStage]

theorem screenStage_fire (prev : PrevState) (pos : Pos)
    (hw : prev.wasOnScreen = false) (hs : isOnScreen pos = true) :
    screenStage prev pos (false, none, none) =
      (true, some "ENTERED SCREEN", some "Visual Contact") := by
  simp [screenStage, triggerRules, hw, hs]

theorem screenStage_nofire (prev : PrevState) (pos : Pos)
    (h : ¬(prev.wasOnScreen = false ∧ isOnScreen pos = true)) :
    screenStage prev pos (false, none, none) = (false, none, none) := by
  simp only [screenStage, triggerRules]
  split_ifs <;> simp_all

theorem zoneStage_fire (prev : PrevState) (pos : Pos)
    (hz : getZone prev.altitude ≠ getZone pos.altitude) :
    zoneStage prev pos (false, none, none) = (true, some "ZONE CHANGE",
      some (getZone prev.altitude ++ " → " ++ getZone pos.altitude)) := by
  simp [zoneStage, triggerRules, hz]

theorem zoneStage_nofire (prev : PrevState) (pos : Pos)
    (hz : getZone prev.altitude = getZone pos.altitude) :
    zoneStage prev pos (false, none, none) = (false, none, none) := by
  simp [zoneStage, triggerRules, hz]

theorem beaconStage_fire (prev : PrevState) (inp : TriggerInput)
    (hb : (inp.now : ℚ) - (prev.lastBeacon : ℚ) > 1000
      + inp.jitter * 1000 ∧ inp.beaconDraw < 1 / 10) :
    beaconStage prev inp (false, none, none) =
      (true, some "BEACON SIGNAL", some "Keep-alive Signal", inp.now) := by
  have hb2 : (inp.now : ℚ) - (prev.lastBeacon : ℚ) > triggerRules.periodicInterval
      + inp.jitter * 1000 ∧ inp.beaconDraw < 1 / 10 := hb
  unfold beaconStage
  rw [if_pos ⟨rfl, rfl⟩, if_pos hb2]

theorem beaconStage_nofire (prev : PrevState) (inp : TriggerInput)
    (hb : ¬((inp.now : ℚ) - (prev.lastBeacon : ℚ) > 1000
      + inp.jitter * 1000 ∧ inp.beaconDraw < 1 / 10)) :
    (beaconStage prev inp (false, none, none)).1 = false ∧
      (beaconStage prev inp (false, none, none)).2.1 = none := by
  simp only [beaconStage, triggerRules]
  split_ifs <;> simp_all

theorem evalRules_sameCoords_rule (prev : PrevState) (pos : Pos) (inp : TriggerInput)
    (h1 : prev.longitude = pos.longitude) (h2 : prev.latitude = pos.latitude)
    (h3 : prev.altitude = pos.altitude)
    (ht : (evalRules prev pos inp).triggered = true) :
    (evalRules prev pos inp).rule = some "ENTERED SCREEN" ∨
      (evalRules prev pos inp).rule = some "BEACON SIGNAL" := by
  have hg := gridStage_sameCoords prev pos h1 h2
  by_cases hscr : prev.wasOnScreen = false ∧ isOnScreen pos = true
  · left
    simp only [evalRules, hg, screenStage_fire prev pos hscr.1 hscr.2,
      zoneStage_true, beaconStage_true]
  · have hs := screenStage_nofire prev pos hscr
    have hz := zoneStage_nofire prev pos (by rw [h3])
    by_cases hb : (inp.now : ℚ) - (prev.lastBeacon : ℚ) > 1000
      + inp.jitter * 1000 ∧ inp.beaconDraw < 1 / 10
    · right
      simp only [evalRules, hg, hs, hz, beaconStage_fire prev inp hb]
    · exfalso
      obtain ⟨hb1, _⟩ := beaconStage_nofire prev inp hb
      simp only [evalRules, hg, hs, hz, hb1] at ht
      exact Bool.false_ne_true ht

theorem evalRules_rule_eq_prioritySelect (prev : PrevState) (pos : Pos) (inp : TriggerInput) :
    (evalRules prev pos inp).rule = prioritySelect prev pos inp ∧
      ((evalRules prev pos inp).triggered = true ↔ (evalRules prev pos inp).rule ≠ none) := by
  by_cases hlon : Int.floor (prev.longitude / 10) ≠ Int.floor (pos.longitude / 10)
  · simp only [evalRules, prioritySelect, gridStage_fire_lon prev pos hlon,
      screenStage_true, zoneStage_true, beaconStage_true, if_pos hlon]
    simp
  · rw [not_not] at hlon
    by_cases hlat : Int.floor (prev.latitude / 10) ≠ Int.floor (pos.latitude / 10)
    · simp only [evalRules, prioritySelect, gridStage_fire_lat prev pos hlon hlat,
        screenStage_true, zoneStage_true, beaconStage_true,
        if_neg (not_not_intro hlon), if_pos hlat]
      simp
    · rw [not_not] at hlat
      have hg := gridStage_nofire prev pos hlon hlat
      by_cases hscr : prev.wasOnScreen = false ∧ isOnScreen pos = true
      · simp only [evalRules, prioritySelect, hg, screenStage_fire prev pos hscr.1 hscr.2,
          zoneStage_true, beaconStage_true,
          if_neg (not_not_intro hlon), if_neg (not_not_intro hlat),
          if_pos (show prev.wasOnScreen = false ∧ (decide (|pos.longitude| < 170)
            && decide (|pos.latitude| < 85)) = true from ⟨hscr.1, hscr.2⟩)]
        simp
      · have hs := screenStage_nofire prev pos hscr
        have hscr2 : ¬(prev.wasOnScreen = false ∧ (decide (|pos.longitude| < 170)
            && decide (|pos.latitude| < 85)) = true) := hscr
        by_cases hzone : getZone prev.altitude ≠ getZone pos.altitude
        · simp only [evalRules, prioritySelect, hg, hs, zoneStage_fire prev pos hzone,
            beaconStage_true, if_neg (not_not_intro hlon),
            if_neg (not_not_intro hlat), if_neg hscr2, if_pos hzone]
          simp
        · rw [not_not] at hzone
          have hz := zoneStage_nofire prev pos hzone
          by_cases hb : (inp.now : ℚ) - (prev.lastBeacon : ℚ) > 1000
            + inp.jitter * 1000 ∧ inp.beaconDraw < 1 / 10
          · simp only [evalRules, prioritySelect, hg, hs, hz, beaconStage_fire prev inp hb,
              if_neg (not_not_intro hlon), if_neg (not_not_intro hlat), if_neg hscr2,
              if_neg (not_not_intro hzone), if_pos hb]
            simp
          · obtain ⟨hb1, hbr⟩ := beaconStage_nofire prev inp hb
            simp only [evalRules, prioritySelect, hg, hs, hz, hb1, hbr,
              if_neg (not_not_intro hlon), if_neg (not_not_intro hlat), if_neg hscr2,
              if_neg (not_not_intro hzone), if_neg hb]
            simp

theorem evalRules_fresh_rule (pos : Pos) (inp : TriggerInput) :
    ((evalRules ⟨pos.longitude, pos.latitude, pos.altitude, false, 0⟩ pos inp).rule
          = some "ENTERED SCREEN" ↔ (|pos.longitude| < 170 ∧ |pos.latitude| < 85)) ∧
      (evalRules ⟨pos.longitude, pos.latitude, pos.altitude, false, 0⟩ pos inp).rule
          ≠ some "GRID LINE (LON)" ∧
      (evalRules ⟨pos.longitude, pos.latitude, pos.altitude, false, 0⟩ pos inp).rule
          ≠ some "GRID LINE (LAT)" ∧
      (evalRules ⟨pos.longitude, pos.latitude, pos.altitude, false, 0⟩ pos inp).rule
          ≠ some "ZONE CHANGE" := by
  have hg := gridStage_sameCoords ⟨pos.longitude, pos.latitude, pos.altitude, false, 0⟩
    pos rfl rfl
  by_cases hscr : isOnScreen pos = true
  · have hs := screenStage_fire ⟨pos.longitude, pos.latitude, pos.altitude, false, 0⟩
      pos rfl hscr
    have hscr2 : |pos.longitude| < 170 ∧ |pos.latitude| < 85 := by
      simpa [isOnScreen] using hscr
    simp only [evalRules, hg, hs, zoneStage_true, beaconStage_true]
    simp [hscr2]
  · have hscr2 : ¬(|pos.longitude| < 170 ∧ |pos.latitude| < 85) := by
      simpa [isOnScreen] using hscr
    have hs := screenStage_nofire ⟨pos.longitude, pos.latitude, pos.altitude, false, 0⟩
      pos (by simp [hscr])
    have hz := zoneStage_nofire ⟨pos.longitude, pos.latitude, pos.altitude, false, 0⟩
      pos rfl
    by_cases hb : (inp.now : ℚ) - (((0 : ℤ) : ℚ)) > 1000
      + inp.jitter * 1000 ∧ inp.beaconDraw < 1 / 10
    · have hbf := beaconStage_fire ⟨pos.longitude, pos.latitude, pos.altitude, false, 0⟩
        inp hb
      simp only [evalRules, hg, hs, hz, hbf]
      simp [hscr2]
    · obtain ⟨hb1, hbr⟩ := beaconStage_nofire
        ⟨pos.longitude, pos.latitude, pos.altitude, false, 0⟩ inp hb
      simp only [evalRules, hg, hs, hz, hbr]
      simp [hscr2]

/-! ## Concrete evaluation of the two-call scenario -/

theorem firstCall_eval :
    evalRules p0 pos0 inp0 =
      { triggered := true, rule := some "GRID LINE (LON)",
        detail := some (toString ((Int.floor (pos0.longitude / 10) : ℚ) * 10) ++ "° E"),
        wasOnScreen := false, lastBeacon := inp0.now } := by
  have hlon : Int.floor (p0.longitude / 10) ≠ Int.floor (pos0.longitude / 10) := by
    norm_num [p0, pos0]
  have hg := gridStage_fire_lon p0 pos0 hlon
  simp only [evalRules, hg, screenStage_true, zoneStage_true, beaconStage_true]
  simp [wasOnScreenAfter, hg, p0]

theorem firstCall_result :
    (checkTriggerRules m0 sat0 inp0).2.shouldTrigger = true ∧
      (checkTriggerRules m0 sat0 inp0).2.rule = some "GRID LINE (LON)" := by
  have hpf : prevOf m0 sat0 pos0 = p0 := by
    simp [prevOf, m0, sat0, satIdOf, alLookup]
  rw [checkTriggerRules_result_prevOf m0 sat0 inp0 pos0 rfl, hpf, firstCall_eval]
  exact ⟨rfl, rfl⟩

theorem secondCall_result :
    (checkTriggerRules (checkTriggerRules m0 sat0 inp0).1 sat0 inp0b).2.shouldTrigger = true ∧
      (checkTriggerRules (checkTriggerRules m0 sat0 inp0).1 sat0 inp0b).2.rule =
        some "ENTERED SCREEN" := by
  have hpf : prevOf m0 sat0 pos0 = p0 := by
    simp [prevOf, m0, sat0, satIdOf, alLookup]
  have hst := checkTriggerRules_stores_eq m0 sat0 inp0 pos0 rfl
  rw [hpf, firstCall_eval] at hst
  have hpf2 : prevOf (checkTriggerRules m0 sat0 inp0).1 sat0 pos0 =
      ⟨pos0.longitude, pos0.latitude, pos0.altitude, false, inp0.now⟩ := by
    simp [prevOf, hst]
  have hscr : isOnScreen pos0 = true := by
    norm_num [isOnScreen, pos0]
  have hg := gridStage_sameCoords
    ⟨pos0.longitude, pos0.latitude, pos0.altitude, false, inp0.now⟩ pos0 rfl rfl
  have hs := screenStage_fire
    ⟨pos0.longitude, pos0.latitude, pos0.altitude, false, inp0.now⟩ pos0 rfl hscr
  rw [checkTriggerRules_result_prevOf (checkTriggerRules m0 sat0 inp0).1 sat0 inp0b pos0 rfl,
    hpf2]
  simp only [evalRules, hg, hs, zoneStage_true, beaconStage_true]
  simp

/-! ## C3 — two successive calls on the same sample -/

/-- C3 counterexample: from the stored state `m0`, two successive calls with
the identical sample `sat0` BOTH fire — the first a longitude grid crossing,
the second a screen entry (the grid rule pre-empted the screen block, so the
visibility flag was still stale on the second call).  This refutes both
"fires at most once overall" and "never fires on the second identical
call". -/
theorem checkTriggerRules_fires_twice :
    ((checkTriggerRules m0 sat0 inp0).2.shouldTrigger = true ∧
      (checkTriggerRules m0 sat0 inp0).2.rule = some "GRID LINE (LON)") ∧
    ((checkTriggerRules (checkTriggerRules m0 sat0 inp0).1 sat0 inp0b).2.shouldTrigger = true ∧
      (checkTriggerRules (checkTriggerRules m0 sat0 inp0).1 sat0 inp0b).2.rule =
        some "ENTERED SCREEN") :=
  ⟨firstCall_result, secondCall_result⟩

/-- C3 (amended): after a call on a sample, a second call on the identical
sample can never fire the grid-crossing or zone-change rules (their inputs
were overwritten with the sample's own coordinates); if it fires at all, the
rule is screen entry (possible only because a grid crossing on the first
call pre-empted the visibility update) or the periodic beacon. -/
theorem checkTriggerRules_second_identical_call (m : MapperState) (sat : Satellite)
    (inp1 inp2 : TriggerInput)
    (ht : (checkTriggerRules (checkTriggerRules m sat inp1).1 sat inp2).2.shouldTrigger = true) :
    (checkTriggerRules (checkTriggerRules m sat inp1).1 sat inp2).2.rule =
        some "ENTERED SCREEN" ∨
      (checkTriggerRules (checkTriggerRules m sat inp1).1 sat inp2).2.rule =
        some "BEACON SIGNAL" := by
  cases hpos : sat.position with
  | none =>
    simp [checkTriggerRules, hpos] at ht
  | some pos =>
    have hst := checkTriggerRules_stores_eq m sat inp1 pos hpos
    have hpf2 : prevOf (checkTriggerRules m sat inp1).1 sat pos =
        { longitude := pos.longitude, latitude := pos.latitude, altitude := pos.altitude,
          wasOnScreen := (evalRules (prevOf m sat pos) pos inp1).wasOnScreen,
          lastBeacon := (evalRules (prevOf m sat pos) pos inp1).lastBeacon } := by
      simp [prevOf, hst]
    rw [checkTriggerRules_result_prevOf (checkTriggerRules m sat inp1).1 sat inp2 pos hpos,
      hpf2] at ht ⊢
    exact evalRules_sameCoords_rule _ pos inp2 rfl rfl rfl ht

/-- C3 witness: the amended theorem applied to the concrete scenario (the
second call fires, and the fired rule is indeed the screen entry). -/
theorem checkTriggerRules_second_identical_call_witness :
    (checkTriggerRules (checkTriggerRules m0 sat0 inp0).1 sat0 inp0b).2.rule =
        some "ENTERED SCREEN" ∨
      (checkTriggerRules (checkTriggerRules m0 sat0 inp0).1 sat0 inp0b).2.rule =
        some "BEACON SIGNAL" :=
  checkTriggerRules_second_identical_call m0 sat0 inp0 inp0b secondCall_result.1

/-! ## C5 — priority order of the trigger rules -/

/-- C5: on every call with a valid position, at most one rule fires (the
result carries a single rule, which is `none` exactly when nothing fired),
and the fired rule is selected in the fixed priority order grid crossing >
screen entry > zone change > periodic beacon, a higher-priority match
suppressing all lower checks. -/
theorem checkTriggerRules_priority (m : MapperState) (sat : Satellite)
    (inp : TriggerInput) (pos : Pos) (hpos : sat.position = some pos) :
    (checkTriggerRules m sat inp).2.rule = prioritySelect (prevOf m sat pos) pos inp ∧
      ((checkTriggerRules m sat inp).2.shouldTrigger = true ↔
        (checkTriggerRules m sat inp).2.rule ≠ none) := by
  rw [checkTriggerRules_result_prevOf m sat inp pos hpos]
  exact evalRules_rule_eq_prioritySelect (prevOf m sat pos) pos inp

/-- C5 witness: the priority theorem at the concrete scenario. -/
theorem checkTriggerRules_priority_witness :
    (checkTriggerRules m0 sat0 inp0).2.rule = prioritySelect (prevOf m0 sat0 pos0) pos0 inp0 ∧
      ((checkTriggerRules m0 sat0 inp0).2.shouldTrigger = true ↔
        (checkTriggerRules m0 sat0 inp0).2.rule ≠ none) :=
  checkTriggerRules_priority m0 sat0 inp0 pos0 rfl

/-! ## C10 — first observation of an entity -/

/-- C10: on the first call for an entity (no stored record) with a valid
sample, the lazily created record copies the sample's own coordinates, so the
grid-crossing and zone-change rules cannot fire; the screen-entry rule fires
exactly when the sample is on screen (`|longitude| < 170` and
`|latitude| < 85`), the stored visibility flag starting out false. -/
theorem checkTriggerRules_first_observation (m : MapperState) (sat : Satellite)
    (inp : TriggerInput) (pos : Pos) (hpos : sat.position = some pos)
    (hnew : alLookup m.previousStates (satIdOf sat) = none) :
    ((checkTriggerRules m sat inp).2.rule = some "ENTERED SCREEN" ↔
        (|pos.longitude| < 170 ∧ |pos.latitude| < 85)) ∧
      (checkTriggerRules m sat inp).2.rule ≠ some "GRID LINE (LON)" ∧
      (checkTriggerRules m sat inp).2.rule ≠ some "GRID LINE (LAT)" ∧
      (checkTriggerRules m sat inp).2.rule ≠ some "ZONE CHANGE" := by
  have hpf : prevOf m sat pos =
      { longitude := pos.longitude, latitude := pos.latitude, altitude := pos.altitude,
        wasOnScreen := false, lastBeacon := 0 } := by
    simp [prevOf, hnew]
  rw [checkTriggerRules_result_prevOf m sat inp pos hpos, hpf]
  exact evalRules_fresh_rule pos inp

/-- C10 witness: a fresh on-screen satellite observed against an empty map. -/
theorem checkTriggerRules_first_observation_witness :
    ((checkTriggerRules mEmpty sat1 inp0).2.rule = some "ENTERED SCREEN" ↔
        (|pos0.longitude| < 170 ∧ |pos0.latitude| < 85)) ∧
      (checkTriggerRules mEmpty sat1 inp0).2.rule ≠ some "GRID LINE (LON)" ∧
      (checkTriggerRules mEmpty sat1 inp0).2.rule ≠ some "GRID LINE (LAT)" ∧
      (checkTriggerRules mEmpty sat1 inp0).2.rule ≠ some "ZONE CHANGE" :=
  checkTriggerRules_first_observation mEmpty sat1 inp0 pos0 rfl rfl

/-! ## Scheduler lemmas: the global throttle and the rolling window -/

instance : IsTrans ℤ (fun a b => a + 100 ≤ b) :=
  ⟨fun a b c hab hbc => by omega⟩

theorem updateStats_glt (st : AudioState) (now extVoice : ℤ) :
    (updateStats st now extVoice).globalLastTrigger = st.globalLastTrigger := by
  unfold updateStats
  split_ifs <;> rfl

theorem processSatellite_cases (st : AudioState) (sat : Satellite) (inp : ProcInput) :
    processSatellite st sat inp = none ∨
    (∃ st2, processSatellite st sat inp = some (st2, none) ∧
      st2.globalLastTrigger = st.globalLastTrigger) ∨
    (∃ st2 note, processSatellite st sat inp = some (st2, some (inp.now, note)) ∧
      st2.globalLastTrigger = inp.now ∧ st.globalLastTrigger + 100 ≤ inp.now) := by
  simp only [processSatellite]
  split_ifs with h1 h2 h4
  · exact Or.inr (Or.inl ⟨st, rfl, rfl⟩)
  · exact Or.inr (Or.inl ⟨st, rfl, rfl⟩)
  · split
    · exact Or.inl rfl
    · rename_i params hm
      by_cases h3 : params.shouldTrigger = true
      · rw [if_pos h3]
        exact Or.inr (Or.inr ⟨_, _, rfl, rfl, by omega⟩)
      · rw [if_neg h3]
        split
        · exact Or.inl rfl
        · split_ifs with h5 h6 h7 <;>
            first
            | exact Or.inr (Or.inr ⟨_, _, rfl, rfl, by omega⟩)
            | exact Or.inr (Or.inl ⟨_, rfl, rfl⟩)
  · split
    · exact Or.inl rfl
    · rename_i params hm
      by_cases h3 : params.shouldTrigger = true
      · rw [if_pos h3]
        exact Or.inr (Or.inl ⟨_, rfl, rfl⟩)
      · rw [if_neg h3]
        split
        · exact Or.inl rfl
        · split_ifs with h5 h6 h7 <;>
            first
            | exact Or.inr (Or.inr ⟨_, _, rfl, rfl, by omega⟩)
            | exact Or.inr (Or.inl ⟨_, rfl, rfl⟩)

theorem run_chain (steps : List Step) : ∀ st : AudioState,
    List.Chain' (fun a b => a + 100 ≤ b) (st.globalLastTrigger :: run st steps) := by
  induction steps with
  | nil => intro st; simp [run]
  | cons s rest ih =>
    intro st
    cases s with
    | proc sat inp =>
      rcases processSatellite_cases st sat inp with h | ⟨st2, h, hg⟩ | ⟨st2, note, h, hg, hge⟩
      · simpa only [run, h] using ih st
      · have := ih st2
        rw [hg] at this
        simpa only [run, h] using this
      · have htail := ih st2
        rw [hg] at htail
        have : List.Chain' (fun a b => a + 100 ≤ b)
            (st.globalLastTrigger :: inp.now :: run st2 rest) :=
          List.chain'_cons.mpr ⟨hge, htail⟩
        simpa only [run, h] using this
    | stats now extVoice =>
      have := ih (updateStats st now extVoice)
      rw [updateStats_glt] at this
      simpa only [run] using this
    | interleave m sc =>
      have := ih { st with mapper := m, scale := sc }
      simpa only [run] using this

theorem run_pairwise (st : AudioState) (steps : List Step) :
    List.Pairwise (fun a b => a + 100 ≤ b) (run st steps) :=
  (List.chain'_iff_pairwise.mp (run_chain steps st)).of_cons

theorem pairwise_gap_window_bound : ∀ (l : List ℤ) (n : ℕ) (lo : ℤ),
    List.Pairwise (fun a b => a + 100 ≤ b) l →
    (∀ x ∈ l, lo ≤ x ∧ x ≤ lo + 100 * (n : ℤ)) → l.length ≤ n + 1 := by
  intro l
  induction l with
  | nil => intro n lo _ _; simp
  | cons a t ih =>
    intro n lo hp hbound
    cases n with
    | zero =>
      cases t with
      | nil => simp
      | cons b t2 =>
        exfalso
        have hab : a + 100 ≤ b := (List.pairwise_cons.mp hp).1 b (by simp)
        have h1 := hbound a (by simp)
        have h2 := hbound b (by simp)
        simp at h1 h2
        omega
    | succ m =>
      have hall := (List.pairwise_cons.mp hp).1
      have hlen : t.length ≤ m + 1 := by
        refine ih m (lo + 100) (List.pairwise_cons.mp hp).2 (fun x hx => ?_)
        have h1 := hbound x (List.mem_cons_of_mem a hx)
        have h2 := hall x hx
        have h3 := hbound a (by simp)
        push_cast at h1 h3 ⊢
        omega
      simpa using Nat.succ_le_succ hlen

/-! ## C6 — the 100 ms global micro-throttle -/

/-- C6: along every run of the engine, any two admitted events are at least
100 ms apart: whenever the scheduler admits an event, at least 100 ms have
elapsed since the previous admitted event anywhere in the system. -/
theorem run_admissions_min_gap (st : AudioState) (steps : List Step) :
    List.Pairwise (fun a b => a + 100 ≤ b) (run st steps) :=
  run_pairwise st steps

/-! ## C1 — the rolling 1-second admission ceiling -/

/-- C1: along every run of the engine, from every state and for every
sequence of candidates offered across ticks, at most 15 events are admitted
within any rolling 1-second window (in fact at most 11, a consequence of the
100 ms global throttle — the `eventCounter > 15` ceiling alone is not what
enforces it). -/
theorem run_admissions_window_le_15 (st : AudioState) (steps : List Step) (lo : ℤ) :
    ((run st steps).filter (fun t => decide (lo ≤ t ∧ t ≤ lo + 1000))).length ≤ 15 := by
  have hp : List.Pairwise (fun a b => a + 100 ≤ b)
      ((run st steps).filter (fun t => decide (lo ≤ t ∧ t ≤ lo + 1000))) :=
    (run_pairwise st steps).filter _
  have hb : ∀ x ∈ (run st steps).filter (fun t => decide (lo ≤ t ∧ t ≤ lo + 1000)),
      lo ≤ x ∧ x ≤ lo + 100 * ((10 : ℕ) : ℤ) := by
    intro x hx
    have := List.of_mem_filter hx
    simp only [decide_eq_true_eq] at this
    refine ⟨this.1, ?_⟩
    have := this.2
    norm_num
    omega
  have := pairwise_gap_window_bound _ 10 lo hp hb
  omega

/-! ## Lemmas about `noteToMidi` and `constrainToChord` -/

theorem jsIndexOf_noteNames_lb (x : String) : -1 ≤ jsIndexOf noteNames x := by
  unfold jsIndexOf
  cases h : List.findIdx? (fun y => y == x) noteNames with
  | none => simp
  | some i =>
    simp only []
    omega

theorem jsIndexOf_noteNames_ub (x : String) : jsIndexOf noteNames x < 12 := by
  unfold jsIndexOf
  cases h : List.findIdx? (fun y => y == x) noteNames with
  | none => simp
  | some i =>
    have hi := (List.findIdx?_eq_some_iff_findIdx_eq.mp h).1
    simp only [noteNames, List.length] at hi
    simp only []
    omega

theorem jsIndexOf_mem_lb (x : String) (hx : x ∈ noteNames) : 0 ≤ jsIndexOf noteNames x := by
  fin_cases hx <;> decide

theorem noteNames_getD_jsIndexOf (x : String) (hx : x ∈ noteNames) :
    noteNames.getD (jsIndexOf noteNames x).toNat "undefined" = x := by
  fin_cases hx <;> decide

theorem noteToMidi_append (nm : String) (hnm : nm ∈ noteNames) (o : ℤ)
    (h0 : 0 ≤ o) (h9 : o ≤ 9) :
    noteToMidi (nm ++ toString o) = candMidi nm o := by
  fin_cases hnm <;> interval_cases o <;> decide

theorem foldl_min_spec (im : ℤ) : ∀ (l : List ℤ) (acc : ℤ × ℤ),
    (List.foldl (fun acc t => if |t - im| < acc.2 then (t, |t - im|) else acc) acc l = acc ∨
      ((List.foldl (fun acc t => if |t - im| < acc.2 then (t, |t - im|) else acc) acc l).1 ∈ l ∧
        (List.foldl (fun acc t => if |t - im| < acc.2 then (t, |t - im|) else acc) acc l).2 =
          |(List.foldl (fun acc t => if |t - im| < acc.2 then (t, |t - im|) else acc) acc l).1 - im|)) ∧
    (List.foldl (fun acc t => if |t - im| < acc.2 then (t, |t - im|) else acc) acc l).2 ≤ acc.2 ∧
    ∀ t ∈ l,
      (List.foldl (fun acc t => if |t - im| < acc.2 then (t, |t - im|) else acc) acc l).2 ≤ |t - im| := by
  intro l
  induction l with
  | nil =>
    intro acc
    refine ⟨Or.inl rfl, le_refl _, ?_⟩
    simp
  | cons a t ih =>
    intro acc
    simp only [List.foldl_cons]
    by_cases h : |a - im| < acc.2
    · rw [if_pos h]
      obtain ⟨hd, hle, hall⟩ := ih (a, |a - im|)
      refine ⟨?_, le_trans hle (le_of_lt h), ?_⟩
      · rcases hd with hd | ⟨hmem, heq⟩
        · right
          rw [hd]
          exact ⟨List.mem_cons_self a t, rfl⟩
        · exact Or.inr ⟨List.mem_cons_of_mem a hmem, heq⟩
      · intro x hx
        rcases List.mem_cons.mp hx with rfl | hx2
        · exact hle
        · exact hall x hx2
    · rw [if_neg h]
      obtain ⟨hd, hle, hall⟩ := ih acc
      refine ⟨?_, hle, ?_⟩
      · rcases hd with hd | ⟨hmem, heq⟩
        · exact Or.inl hd
        · exact Or.inr ⟨List.mem_cons_of_mem a hmem, heq⟩
      · intro x hx
        rcases List.mem_cons.mp hx with rfl | hx2
        · exact le_trans hle (le_of_not_lt h)
        · exact hall x hx2

/-! ## C4 — `constrainToChord` membership and minimization -/

/-- C4 (amended): for a well-formed input note whose octave digit lies in
1–8 and a nonempty list of valid pitch-class names, `constrainToChord`
returns one of the candidates formed by an allowed pitch class at the
input's octave minus one, the octave itself, or the octave plus one — so its
pitch class is a member of `allowedNotes` — and that candidate minimizes the
absolute MIDI distance to the input over the whole candidate set.  (At
octave 0 or 9 the octave `-1` / `10` candidate strings mis-parse inside
`noteToMidi`, which is what the counterexample exhibits.) -/
theorem constrainToChord_minimizes (note : String) (allowed : List String)
    (nm0 : String) (oct : ℕ)
    (hparse : findNoteMatch note.toList = some (nm0, oct))
    (hlo : 1 ≤ oct) (hhi : oct ≤ 8)
    (hne : allowed ≠ [])
    (hvalid : ∀ a ∈ allowed, a ∈ noteNames) :
    ∃ nm ∈ allowed, ∃ o : ℤ,
      (o = (oct : ℤ) - 1 ∨ o = (oct : ℤ) ∨ o = (oct : ℤ) + 1) ∧
      constrainToChord note allowed = nm ++ toString o ∧
      ∀ nm2 ∈ allowed, ∀ o2 : ℤ,
        (o2 = (oct : ℤ) - 1 ∨ o2 = (oct : ℤ) ∨ o2 = (oct : ℤ) + 1) →
        |candMidi nm o - noteToMidi note| ≤ |candMidi nm2 o2 - noteToMidi note| := by
  have hlen : ¬(allowed.length = 0) := by
    simpa [List.length_eq_zero] using hne
  unfold constrainToChord
  rw [if_neg hlen]
  simp only [hparse]
  set im := noteToMidi note with him
  set cands := allowed.flatMap (fun allowedName =>
    [((oct : ℤ) - 1), (oct : ℤ), ((oct : ℤ) + 1)].map
      (fun o => noteToMidi (allowedName ++ toString o))) with hcands
  set best := cands.foldl
    (fun acc targetMidi =>
      if |targetMidi - im| < acc.2 then (targetMidi, |targetMidi - im|) else acc)
    ((-1 : ℤ), (999 : ℤ)) with hbest
  obtain ⟨hd, hle, hmin⟩ := foldl_min_spec im cands ((-1 : ℤ), (999 : ℤ))
  obtain ⟨a, rest, rfl⟩ : ∃ a rest, allowed = a :: rest := by
    cases allowed with
    | nil => exact absurd rfl hne
    | cons a rest => exact ⟨a, rest, rfl⟩
  have ha : a ∈ noteNames := hvalid a (by simp)
  have hc0mem : noteToMidi (a ++ toString ((oct : ℤ) - 1)) ∈ cands := by
    rw [hcands]
    refine List.mem_flatMap.mpr ⟨a, by simp, List.mem_map.mpr ⟨(oct : ℤ) - 1, by simp, rfl⟩⟩
  have hidx0 := jsIndexOf_noteNames_lb nm0
  have hidx1 := jsIndexOf_noteNames_ub nm0
  have him2 : im = ((oct : ℤ) + 1) * 12 + jsIndexOf noteNames nm0 := by
    rw [him]
    unfold noteToMidi
    rw [hparse]
  have himb : 23 ≤ im ∧ im ≤ 119 := by
    rw [him2]
    omega
  have hc0 : noteToMidi (a ++ toString ((oct : ℤ) - 1)) = candMidi a ((oct : ℤ) - 1) :=
    noteToMidi_append a ha _ (by omega) (by omega)
  have hia0 := jsIndexOf_mem_lb a ha
  have hia1 := jsIndexOf_noteNames_ub a
  have hc0b : 12 ≤ candMidi a ((oct : ℤ) - 1) ∧ candMidi a ((oct : ℤ) - 1) ≤ 131 := by
    unfold candMidi
    omega
  rcases hd with hd | ⟨hmem, heq⟩
  · exfalso
    have h999 := hmin _ hc0mem
    rw [hd, hc0] at h999
    have habs : |candMidi a ((oct : ℤ) - 1) - im| < 999 :=
      abs_lt.mpr ⟨by omega, by omega⟩
    exact absurd h999 (not_le.mpr habs)
  · rw [hcands] at hmem
    obtain ⟨nm, hnmmem, hx⟩ := List.mem_flatMap.mp hmem
    obtain ⟨j, hjmem, hji⟩ := List.mem_map.mp hx
    have hjd : j = (oct : ℤ) - 1 ∨ j = (oct : ℤ) ∨ j = (oct : ℤ) + 1 := by
      simpa using hjmem
    have hnmN : nm ∈ noteNames := hvalid nm hnmmem
    have hj0 : 0 ≤ j := by omega
    have hj9 : j ≤ 9 := by omega
    have hb1 : best.1 = candMidi nm j := by
      rw [← hji, noteToMidi_append nm hnmN j hj0 hj9]
    have hpc0 := jsIndexOf_mem_lb nm hnmN
    have hpc1 := jsIndexOf_noteNames_ub nm
    have hsem : jsRemInt best.1 12 = jsIndexOf noteNames nm := by
      rw [hb1]
      unfold candMidi jsRemInt
      rw [if_neg (by omega)]
      omega
    have hdiv : best.1 / 12 - 1 = j := by
      rw [hb1]
      unfold candMidi
      omega
    refine ⟨nm, hnmmem, j, hjd, ?_, ?_⟩
    · rw [hsem, hdiv, if_pos ⟨hpc0, hpc1⟩, noteNames_getD_jsIndexOf nm hnmN]
    · intro nm2 hnm2 o2 ho2
      have hnm2N := hvalid nm2 hnm2
      have ho20 : 0 ≤ o2 := by omega
      have ho29 : o2 ≤ 9 := by omega
      have hcmem : noteToMidi (nm2 ++ toString o2) ∈ cands := by
        rw [hcands]
        refine List.mem_flatMap.mpr ⟨nm2, hnm2, List.mem_map.mpr ⟨o2, ?_, rfl⟩⟩
        rcases ho2 with rfl | rfl | rfl <;> simp
      have hcb := hmin _ hcmem
      rw [noteToMidi_append nm2 hnm2N o2 ho20 ho29, heq, hb1] at hcb
      exact hcb

/-- C4 witness: the amended theorem at note `"E4"` with the C-major triad. -/
theorem constrainToChord_minimizes_witness :
    ∃ nm ∈ ["C", "E", "G"], ∃ o : ℤ,
      (o = ((4 : ℕ) : ℤ) - 1 ∨ o = ((4 : ℕ) : ℤ) ∨ o = ((4 : ℕ) : ℤ) + 1) ∧
      constrainToChord "E4" ["C", "E", "G"] = nm ++ toString o ∧
      ∀ nm2 ∈ ["C", "E", "G"], ∀ o2 : ℤ,
        (o2 = ((4 : ℕ) : ℤ) - 1 ∨ o2 = ((4 : ℕ) : ℤ) ∨ o2 = ((4 : ℕ) : ℤ) + 1) →
        |candMidi nm o - noteToMidi "E4"| ≤ |candMidi nm2 o2 - noteToMidi "E4"| :=
  constrainToChord_minimizes "E4" ["C", "E", "G"] "E" 4 (by decide) (by decide) (by decide)
    (by decide) (by decide)

/-- C4 counterexample: at input octave 0 the octave-below candidate string
(`"B-1"`) fails to parse inside `noteToMidi` (falling back to MIDI 60), so
`constrainToChord "C0" ["B"]` returns `"B0"` even though the candidate B at
octave −1 (MIDI 11) is strictly closer to the input (MIDI 12): the returned
note does not minimize the distance over the claim's candidate set. -/
theorem constrainToChord_misses_nearest :
    constrainToChord "C0" ["B"] = "B0" ∧
      |candMidi "B" ((0 : ℤ) - 1) - noteToMidi "C0"| <
        |noteToMidi (constrainToChord "C0" ["B"]) - noteToMidi "C0"| := by
  decide

end OrbitalResonance
